import Mathlib

/-!
Verification of the CAMARA Application Endpoint Registration validation layer.

A shallow embedding of `src/app/models/application_endpoint.py` (the
`ApplicationEndpoint` and `ApplicationEndpointsInfo` pydantic models), of the
scalar value types they depend on, and of the route handlers of
`src/app/api/endpoints/application_endpoint_registration.py`.

Pydantic v2 construction semantics as embedded here: every field is validated
first (all field-level errors are collected into one validation failure), and
only when every field validates does `model_post_init` run its cross-field
check; a `ValueError` raised there aborts construction.
-/

namespace Camara

/-! ## Scalar value types

The module `app/models/basic_types.py` is imported by the source but is not
present under `src/`, and `Port` / `SingleIpv4Addr` come from the external
`CamaraCommon` package.  The validators below are therefore modelled from the
spec, as noted on each one. -/

/-- Split a character list at every occurrence of the separator (the
char-level counterpart of Python `str.split` on a one-character
separator). -/
def splitChar (sep : Char) : List Char → List (List Char)
  | [] => [[]]
  | c :: cs =>
    let r := splitChar sep cs
    if c = sep then [] :: r
    else
      match r with
      | [] => [[c]]
      | g :: gs => (c :: g) :: gs

/-- Hexadecimal digit. -/
def isHexChar (ch : Char) : Bool :=
  ch.isDigit || ('a' ≤ ch && ch ≤ 'f') || ('A' ≤ ch && ch ≤ 'F')

/-- Numeric value of a decimal digit run. -/
def digitsToNat (cs : List Char) : Nat :=
  cs.foldl (fun acc c => acc * 10 + (c.toNat - '0'.toNat)) 0

/-- Modelled from the spec: one label of a `DomainName`
(`basic_types.DomainName` is missing from `src/`): 1-63 characters, all
alphanumeric or hyphen, no leading or trailing hyphen; an empty label is
invalid. -/
def labelValid : List Char → Bool
  | [] => false
  | c :: cs =>
    c.isAlphanum &&
    (c :: cs).length ≤ 63 &&
    (c :: cs).all (fun ch => ch.isAlphanum || ch = '-') &&
    ((c :: cs).getLast (by simp)).isAlphanum

/-- Modelled from the spec: `basic_types.DomainName` validation — total length
4-253, split on `.`, at least two labels, every label valid (empty labels,
i.e. leading / trailing / double dots, are rejected by `labelValid`). -/
def domainNameValid (s : String) : Bool :=
  4 ≤ s.data.length && s.data.length ≤ 253 &&
  (let labels := splitChar '.' s.data
   2 ≤ labels.length && labels.all labelValid)

/-- Modelled from the spec: one decimal octet of an IPv4 literal: 1-3 digits,
no superfluous leading zero, value at most 255. -/
def octetValid : List Char → Bool
  | [] => false
  | c :: cs =>
    (c :: cs).length ≤ 3 &&
    (c :: cs).all Char.isDigit &&
    (cs.isEmpty || c ≠ '0') &&
    digitsToNat (c :: cs) ≤ 255

/-- Modelled from the spec: `CamaraCommon.Network.SingleIpv4Addr` (external
package, source not in this repository): a dotted-quad IPv4 literal. -/
def ipv4Valid (s : String) : Bool :=
  let parts := splitChar '.' s.data
  parts.length = 4 && parts.all octetValid

/-- Modelled from the spec: one 16-bit group of an IPv6 literal: 1-4 hex
digits. -/
def hexGroupValid : List Char → Bool
  | [] => false
  | c :: cs => (c :: cs).length ≤ 4 && (c :: cs).all isHexChar

/-- Split a character list at the first `::`, when present. -/
def splitElision : List Char → Option (List Char × List Char)
  | [] => none
  | ':' :: ':' :: rest => some ([], rest)
  | c :: rest =>
    (splitElision rest).map (fun p => (c :: p.1, p.2))

/-- Modelled from the spec: the address part of `basic_types.SingleIpv6Addr`
(missing from `src/`): 8 colon-separated hex groups, or fewer with a single
`::` elision; IPv4-mapped (dotted) forms are not accepted. -/
def ipv6CoreValid (cs : List Char) : Bool :=
  match splitElision cs with
  | none =>
    let gs := splitChar ':' cs
    gs.length = 8 && gs.all hexGroupValid
  | some (l, r) =>
    let ls := if l.isEmpty then [] else splitChar ':' l
    let rs := if r.isEmpty then [] else splitChar ':' r
    ls.length + rs.length ≤ 7 && ls.all hexGroupValid && rs.all hexGroupValid

/-- Modelled from the spec: `basic_types.SingleIpv6Addr` — an IPv6 literal
with an optional non-empty `%zone` suffix. -/
def ipv6Valid (s : String) : Bool :=
  match splitChar '%' s.data with
  | [addr] => ipv6CoreValid addr
  | [addr, zone] => !zone.isEmpty && ipv6CoreValid addr
  | _ => false

/-- `CamaraCommon.Network.Port` (external package): integer in [0, 65535]. -/
def portValid (v : Int) : Bool :=
  0 ≤ v && v ≤ 65535

/-- Modelled from the spec: the UUID format shared by
`basic_types.ApplicationProfileId`, `EdgeCloudZoneId` and
`ApplicationEndpointListId` (missing from `src/`): five hyphen-separated
hex runs of lengths 8-4-4-4-12. -/
def uuidValid (s : String) : Bool :=
  match splitChar '-' s.data with
  | [a, b, c, d, e] =>
    a.length = 8 && b.length = 4 && c.length = 4 && d.length = 4 &&
    e.length = 12 &&
    a.all isHexChar && b.all isHexChar && c.all isHexChar &&
    d.all isHexChar && e.all isHexChar
  | _ => false

/-! ## Typed scalar wrappers

Each pydantic scalar model wraps a single `value` attribute; construction is
the only point where the format rule is enforced, so the Lean wrappers are
plain value structures and the `mk…` pipelines below run the validators. -/

/-- `basic_types.DomainName` instance (validated wrapper around a string). -/
structure DomainName where
  value : String
deriving DecidableEq

/-- `CamaraCommon.Network.SingleIpv4Addr` instance. -/
structure SingleIpv4Addr where
  value : String
deriving DecidableEq

/-- `basic_types.SingleIpv6Addr` instance. -/
structure SingleIpv6Addr where
  value : String
deriving DecidableEq

/-- `CamaraCommon.Network.Port` instance. -/
structure Port where
  value : Int
deriving DecidableEq

/-- `basic_types.ApplicationProfileId` instance. -/
structure ApplicationProfileId where
  value : String
deriving DecidableEq

/-- Modelled from the spec: `basic_types.EdgeCloudZoneStatus` — closed enum
{active, inactive, unknown}. -/
inductive EdgeCloudZoneStatus where
  | active
  | inactive
  | unknown
deriving DecidableEq

/-- Modelled from the spec: raw (wire) input of `basic_types.EdgeCloudZone`;
`none` is an absent field. -/
structure RawEdgeCloudZone where
  edgeCloudZoneId : Option String
  edgeCloudZoneName : Option String
  edgeCloudProvider : Option String
  edgeCloudRegion : Option String
  edgeCloudZoneStatus : Option String
deriving DecidableEq

/-- Modelled from the spec: validated `basic_types.EdgeCloudZone` — id, name,
provider required; region optional; status defaults to `unknown` when
absent. -/
structure EdgeCloudZone where
  edge_cloud_zone_id : String
  edge_cloud_zone_name : String
  edge_cloud_provider : String
  edge_cloud_region : Option String
  edge_cloud_zone_status : EdgeCloudZoneStatus
deriving DecidableEq

/-! ## Validation errors

Pydantic collects every failing field of one construction into a single
`ValidationError`; a `ValueError` raised by `model_post_init` aborts the
construction separately, after all fields validated. -/

/-- One field-level entry of a pydantic `ValidationError`. -/
structure FieldError where
  field : String
  msg : String
deriving DecidableEq

/-- Why a model construction failed: either field-level validation (all
failing fields collected), or the `ValueError` raised by
`model_post_init`. -/
inductive ModelError where
  | fieldErrors : List FieldError → ModelError
  | postInitError : String → ModelError
deriving DecidableEq

/-- The error list of a field-validation result (`[]` when it succeeded). -/
def errsOf {α : Type} : Except (List FieldError) α → List FieldError
  | .ok _ => []
  | .error es => es

/-- "Field required" message used for an absent required field. -/
def requiredMsg : String := "Field required"

/-- Generic format-violation message used for a present-but-invalid field. -/
def formatMsg : String := "value does not satisfy the field format"

/-- Validate one optional string field against its scalar rule. -/
def validateOptStr {α : Type} (fieldName : String) (valid : String → Bool)
    (wrap : String → α) : Option String → Except (List FieldError) (Option α)
  | none => .ok none
  | some s =>
    if valid s then .ok (some (wrap s)) else .error [⟨fieldName, formatMsg⟩]

/-- Modelled from the spec: validate the status field of an
`EdgeCloudZone`; absence resolves to the default `unknown`, an unrecognized
token fails. -/
def parseZoneStatus : Option String → Except (List FieldError) EdgeCloudZoneStatus
  | none => .ok .unknown
  | some s =>
    if s = "active" then .ok .active
    else if s = "inactive" then .ok .inactive
    else if s = "unknown" then .ok .unknown
    else .error [⟨"edge_cloud_zone_status", formatMsg⟩]

/-- Validate a required string field whose rule is `valid`. -/
def validateReqStr (fieldName : String) (valid : String → Bool) :
    Option String → Except (List FieldError) String
  | none => .error [⟨fieldName, requiredMsg⟩]
  | some s => if valid s then .ok s else .error [⟨fieldName, formatMsg⟩]

/-- Modelled from the spec: validate an optional free-label field that must be
non-empty when present (`edge_cloud_region`). -/
def validateOptNonEmpty (fieldName : String) :
    Option String → Except (List FieldError) (Option String)
  | none => .ok none
  | some s =>
    if s.data.isEmpty then .error [⟨fieldName, formatMsg⟩] else .ok (some s)

/-- Modelled from the spec: construct a `basic_types.EdgeCloudZone` — id
(UUID), name and provider (non-empty) required, region optional non-empty,
status defaulting per `parseZoneStatus`; all field errors are collected. -/
def mkEdgeCloudZone (r : RawEdgeCloudZone) :
    Except (List FieldError) EdgeCloudZone :=
  match validateReqStr "edge_cloud_zone_id" uuidValid r.edgeCloudZoneId,
        validateReqStr "edge_cloud_zone_name" (fun s => !s.data.isEmpty) r.edgeCloudZoneName,
        validateReqStr "edge_cloud_provider" (fun s => !s.data.isEmpty) r.edgeCloudProvider,
        validateOptNonEmpty "edge_cloud_region" r.edgeCloudRegion,
        parseZoneStatus r.edgeCloudZoneStatus with
  | .ok zid, .ok zname, .ok zprov, .ok zreg, .ok zstat =>
    .ok ⟨zid, zname, zprov, zreg, zstat⟩
  | a, b, c, d, e =>
    .error (errsOf a ++ errsOf b ++ errsOf c ++ errsOf d ++ errsOf e)

/-! ## ApplicationEndpoint (`src/app/models/application_endpoint.py`) -/

/-- Raw (pre-validation) input of an `ApplicationEndpoint` construction;
`none` is an absent field. -/
structure RawApplicationEndpoint where
  domainName : Option String
  ipv4Address : Option String
  ipv6Address : Option String
  port : Option Int
  edgeCloudZone : Option RawEdgeCloudZone
  applicationEndpointDescription : Option String
deriving DecidableEq

/-- The `ApplicationEndpoint` pydantic model: one address among
`domain_name` / `ipv4_address` / `ipv6_address`, a required `port`, optional
zone and description. -/
structure ApplicationEndpoint where
  domain_name : Option DomainName
  ipv4_address : Option SingleIpv4Addr
  ipv6_address : Option SingleIpv6Addr
  port : Port
  edge_cloud_zone : Option EdgeCloudZone
  application_endpoint_description : Option String
deriving DecidableEq

/-- Validate the required `port` field (missing, or out of [0, 65535]). -/
def validatePort : Option Int → Except (List FieldError) Port
  | none => .error [⟨"port", requiredMsg⟩]
  | some v => if portValid v then .ok ⟨v⟩ else .error [⟨"port", formatMsg⟩]

/-- Validate the optional `edge_cloud_zone` field; its nested field errors are
reported under the `edge_cloud_zone` location. -/
def validateZoneField :
    Option RawEdgeCloudZone → Except (List FieldError) (Option EdgeCloudZone)
  | none => .ok none
  | some z =>
    match mkEdgeCloudZone z with
    | .ok zz => .ok (some zz)
    | .error es =>
      .error (es.map (fun e => ⟨"edge_cloud_zone." ++ e.field, e.msg⟩))

/-- Field-level validation of an `ApplicationEndpoint` construction: every
field is validated and all field errors are collected, exactly as pydantic
does before `model_post_init` may run. -/
def validateEndpointFields (r : RawApplicationEndpoint) :
    Except (List FieldError) ApplicationEndpoint :=
  match validateOptStr "domain_name" domainNameValid DomainName.mk r.domainName,
        validateOptStr "ipv4_address" ipv4Valid SingleIpv4Addr.mk r.ipv4Address,
        validateOptStr "ipv6_address" ipv6Valid SingleIpv6Addr.mk r.ipv6Address,
        validatePort r.port,
        validateZoneField r.edgeCloudZone with
  | .ok dn, .ok v4, .ok v6, .ok p, .ok z =>
    .ok ⟨dn, v4, v6, p, z, r.applicationEndpointDescription⟩
  | a, b, c, d, e =>
    .error (errsOf a ++ errsOf b ++ errsOf c ++ errsOf d ++ errsOf e)

/-- The number of address fields that are set, mirroring
`sum(address_fields)` over `[domain_name is not None, ipv4_address is not
None, ipv6_address is not None]` in `model_post_init`. -/
def ApplicationEndpoint.addressFieldCount (e : ApplicationEndpoint) : Nat :=
  (if e.domain_name.isSome then 1 else 0) +
  (if e.ipv4_address.isSome then 1 else 0) +
  (if e.ipv6_address.isSome then 1 else 0)

/-- The exact message of the `ValueError` raised by
`ApplicationEndpoint.model_post_init` (the two adjacent string literals of
the source concatenate to this). -/
def exactlyOneMsg : String :=
  "Exactly one of domain_name, ipv4_address, or ipv6_address must be provided"

/-- `ApplicationEndpoint.model_post_init`: raise a `ValueError` unless
exactly one address field is set. -/
def ApplicationEndpoint.model_post_init (e : ApplicationEndpoint) :
    Except ModelError Unit :=
  if e.addressFieldCount ≠ 1 then .error (.postInitError exactlyOneMsg)
  else .ok ()

/-- Construct an `ApplicationEndpoint` from raw input: pydantic first
validates every field (collecting all field errors into one
`ValidationError`), and only if that succeeds runs `model_post_init`. -/
def mkApplicationEndpoint (r : RawApplicationEndpoint) :
    Except ModelError ApplicationEndpoint :=
  match validateEndpointFields r with
  | .error es => .error (.fieldErrors es)
  | .ok e =>
    match e.model_post_init with
    | .error err => .error err
    | .ok () => .ok e

/-- How many of the three raw address fields are present in the input. -/
def RawApplicationEndpoint.addressCount (r : RawApplicationEndpoint) : Nat :=
  (if r.domainName.isSome then 1 else 0) +
  (if r.ipv4Address.isSome then 1 else 0) +
  (if r.ipv6Address.isSome then 1 else 0)

/-! ## ApplicationEndpointsInfo (`src/app/models/application_endpoint.py`) -/

/-- Raw (pre-validation) input of an `ApplicationEndpointsInfo`
construction. -/
structure RawApplicationEndpointsInfo where
  applicationEndpoints : Option (List RawApplicationEndpoint)
  applicationProviderName : Option String
  applicationDescription : Option String
  applicationProfileId : Option String
deriving DecidableEq

/-- The `ApplicationEndpointsInfo` pydantic model: a (possibly empty) list of
endpoints plus required provider name and profile id, optional
description. -/
structure ApplicationEndpointsInfo where
  application_endpoints : List ApplicationEndpoint
  application_provider_name : String
  application_description : Option String
  application_profile_id : ApplicationProfileId
deriving DecidableEq

/-- Field errors contributed by one list element of
`application_endpoints` (nested errors reported under that location). -/
def elemErrs : Except ModelError ApplicationEndpoint → List FieldError
  | .ok _ => []
  | .error (.fieldErrors es) =>
    es.map (fun e => ⟨"application_endpoints." ++ e.field, e.msg⟩)
  | .error (.postInitError m) => [⟨"application_endpoints", m⟩]

/-- Validate every element of the `application_endpoints` list in order,
collecting the errors of all failing elements. -/
def validateEndpointList :
    List RawApplicationEndpoint → Except (List FieldError) (List ApplicationEndpoint)
  | [] => .ok []
  | r :: rs =>
    match mkApplicationEndpoint r, validateEndpointList rs with
    | .ok e, .ok es => .ok (e :: es)
    | a, b => .error (elemErrs a ++ errsOf b)

/-- Validate the required `application_endpoints` field. -/
def validateEndpointsField :
    Option (List RawApplicationEndpoint) →
    Except (List FieldError) (List ApplicationEndpoint)
  | none => .error [⟨"application_endpoints", requiredMsg⟩]
  | some rs => validateEndpointList rs

/-- Validate the required `application_provider_name` field: a plain `str`,
so any present string is accepted. -/
def validateProviderName : Option String → Except (List FieldError) String
  | none => .error [⟨"application_provider_name", requiredMsg⟩]
  | some s => .ok s

/-- Validate the required `application_profile_id` field (UUID format). -/
def validateProfileId : Option String → Except (List FieldError) ApplicationProfileId
  | none => .error [⟨"application_profile_id", requiredMsg⟩]
  | some u => if uuidValid u then .ok ⟨u⟩ else .error [⟨"application_profile_id", formatMsg⟩]

/-- Construct an `ApplicationEndpointsInfo` from raw input: every field is
validated and all field errors are collected; the model declares no
cross-field check of its own. -/
def mkApplicationEndpointsInfo (r : RawApplicationEndpointsInfo) :
    Except ModelError ApplicationEndpointsInfo :=
  match validateEndpointsField r.applicationEndpoints,
        validateProviderName r.applicationProviderName,
        validateProfileId r.applicationProfileId with
  | .ok es, .ok pn, .ok pid =>
    .ok ⟨es, pn, r.applicationDescription, pid⟩
  | a, b, c => .error (.fieldErrors (errsOf a ++ errsOf b ++ errsOf c))

/-! ## Serialization (`model_dump`)

`model_dump` of a validated aggregate produces the stored raw values again
(pydantic serializes with the internal field names; `populate_by_name=True`
makes them re-accepted on re-validation). -/

/-- Wire token of an `EdgeCloudZoneStatus` value. -/
def EdgeCloudZoneStatus.token : EdgeCloudZoneStatus → String
  | .active => "active"
  | .inactive => "inactive"
  | .unknown => "unknown"

/-- `model_dump` of a validated `EdgeCloudZone`. -/
def EdgeCloudZone.model_dump (z : EdgeCloudZone) : RawEdgeCloudZone :=
  ⟨some z.edge_cloud_zone_id, some z.edge_cloud_zone_name,
   some z.edge_cloud_provider, z.edge_cloud_region,
   some z.edge_cloud_zone_status.token⟩

/-- `model_dump` of a validated `ApplicationEndpoint`. -/
def ApplicationEndpoint.model_dump (e : ApplicationEndpoint) :
    RawApplicationEndpoint :=
  ⟨e.domain_name.map DomainName.value,
   e.ipv4_address.map SingleIpv4Addr.value,
   e.ipv6_address.map SingleIpv6Addr.value,
   some e.port.value,
   e.edge_cloud_zone.map EdgeCloudZone.model_dump,
   e.application_endpoint_description⟩

/-- `model_dump` of a validated `ApplicationEndpointsInfo`. -/
def ApplicationEndpointsInfo.model_dump (i : ApplicationEndpointsInfo) :
    RawApplicationEndpointsInfo :=
  ⟨some (i.application_endpoints.map ApplicationEndpoint.model_dump),
   some i.application_provider_name,
   i.application_description,
   some i.application_profile_id.value⟩

/-! ## Wire-name / field-name binding (`populate_by_name=True`)

Every model sets `model_config = ConfigDict(populate_by_name=True)`: a raw
input dict may spell each field either with its wire alias (`domainName`, …)
or with its internal snake_case name (`domain_name`, …); the alias is looked
up first. -/

/-- A value of a raw input dict. -/
inductive FieldValue where
  | str : String → FieldValue
  | int : Int → FieldValue
  | zone : RawEdgeCloudZone → FieldValue
  | endpoints : List RawApplicationEndpoint → FieldValue
deriving DecidableEq

/-- A raw input dict: keys paired with values. -/
abbrev RawDict : Type := List (String × FieldValue)

/-- First value stored under key `k`. -/
def lookupKey (d : RawDict) (k : String) : Option FieldValue :=
  match d with
  | [] => none
  | (k2, v) :: rest => if k2 = k then some v else lookupKey rest k

/-- Look a field up by its wire alias first, then (because of
`populate_by_name=True`) by its internal field name. -/
def getAliased (d : RawDict) (wire fieldName : String) : Option FieldValue :=
  match lookupKey d wire with
  | some v => some v
  | none => lookupKey d fieldName

/-- Bind a string-valued field from a dict (absent or non-string ⇒ absent). -/
def bindStr (d : RawDict) (wire fieldName : String) : Option String :=
  match getAliased d wire fieldName with
  | some (.str s) => some s
  | _ => none

/-- Bind an integer-valued field from a dict. -/
def bindInt (d : RawDict) (wire fieldName : String) : Option Int :=
  match getAliased d wire fieldName with
  | some (.int v) => some v
  | _ => none

/-- Bind the nested zone object from a dict. -/
def bindZone (d : RawDict) (wire fieldName : String) : Option RawEdgeCloudZone :=
  match getAliased d wire fieldName with
  | some (.zone z) => some z
  | _ => none

/-- Bind the endpoint list from a dict. -/
def bindEndpoints (d : RawDict) (wire fieldName : String) :
    Option (List RawApplicationEndpoint) :=
  match getAliased d wire fieldName with
  | some (.endpoints es) => some es
  | _ => none

/-- Bind the raw fields of an `ApplicationEndpoint` from an input dict,
accepting the wire alias or the internal name of each field. -/
def bindEndpointDict (d : RawDict) : RawApplicationEndpoint :=
  ⟨bindStr d "domainName" "domain_name",
   bindStr d "ipv4Address" "ipv4_address",
   bindStr d "ipv6Address" "ipv6_address",
   bindInt d "port" "port",
   bindZone d "edgeCloudZone" "edge_cloud_zone",
   bindStr d "applicationEndpointDescription" "application_endpoint_description"⟩

/-- Bind the raw fields of an `ApplicationEndpointsInfo` from an input dict,
accepting the wire alias or the internal name of each field. -/
def bindInfoDict (d : RawDict) : RawApplicationEndpointsInfo :=
  ⟨bindEndpoints d "applicationEndpoints" "application_endpoints",
   bindStr d "applicationProviderName" "application_provider_name",
   bindStr d "applicationDescription" "application_description",
   bindStr d "applicationProfileId" "application_profile_id"⟩

/-- Dict entry of one optional field (omitted when the field is absent). -/
def optEntry (k : String) (f : α → FieldValue) : Option α → RawDict
  | none => []
  | some v => [(k, f v)]

/-- Input dict of a raw endpoint spelled with the external wire names. -/
def endpointWireDict (r : RawApplicationEndpoint) : RawDict :=
  optEntry "domainName" FieldValue.str r.domainName ++
  optEntry "ipv4Address" FieldValue.str r.ipv4Address ++
  optEntry "ipv6Address" FieldValue.str r.ipv6Address ++
  optEntry "port" FieldValue.int r.port ++
  optEntry "edgeCloudZone" FieldValue.zone r.edgeCloudZone ++
  optEntry "applicationEndpointDescription" FieldValue.str
    r.applicationEndpointDescription

/-- Input dict of a raw endpoint spelled with the internal snake_case
names. -/
def endpointSnakeDict (r : RawApplicationEndpoint) : RawDict :=
  optEntry "domain_name" FieldValue.str r.domainName ++
  optEntry "ipv4_address" FieldValue.str r.ipv4Address ++
  optEntry "ipv6_address" FieldValue.str r.ipv6Address ++
  optEntry "port" FieldValue.int r.port ++
  optEntry "edge_cloud_zone" FieldValue.zone r.edgeCloudZone ++
  optEntry "application_endpoint_description" FieldValue.str
    r.applicationEndpointDescription

/-- Input dict of a raw info aggregate spelled with the external wire
names. -/
def infoWireDict (r : RawApplicationEndpointsInfo) : RawDict :=
  optEntry "applicationEndpoints" FieldValue.endpoints r.applicationEndpoints ++
  optEntry "applicationProviderName" FieldValue.str r.applicationProviderName ++
  optEntry "applicationDescription" FieldValue.str r.applicationDescription ++
  optEntry "applicationProfileId" FieldValue.str r.applicationProfileId

/-- Input dict of a raw info aggregate spelled with the internal snake_case
names. -/
def infoSnakeDict (r : RawApplicationEndpointsInfo) : RawDict :=
  optEntry "application_endpoints" FieldValue.endpoints r.applicationEndpoints ++
  optEntry "application_provider_name" FieldValue.str r.applicationProviderName ++
  optEntry "application_description" FieldValue.str r.applicationDescription ++
  optEntry "application_profile_id" FieldValue.str r.applicationProfileId

/-! ## Route handlers
(`src/app/api/endpoints/application_endpoint_registration.py`)

FastAPI hands each handler its already-validated request body and the
optional `x-correlator` header.  The handlers touch no store or other state
(none exists in the repository), so they embed as pure functions returning
either a response or the raised `HTTPException`. -/

/-- `fastapi.HTTPException`: a status code with a detail message. -/
structure HTTPException where
  status_code : Nat
  detail : String
deriving DecidableEq

/-- `request_models.RegisterApplicationEndpointsRequest`. -/
structure RegisterApplicationEndpointsRequest where
  application_endpoints_info : ApplicationEndpointsInfo
deriving DecidableEq

/-- `request_models.UpdateApplicationEndpointRequest`. -/
structure UpdateApplicationEndpointRequest where
  application_endpoints_info : ApplicationEndpointsInfo
deriving DecidableEq

/-- `response_models.RegisterApplicationEndpointsResponse`
(never produced by the current handlers). -/
structure RegisterApplicationEndpointsResponse where
  application_endpoint_list_id : String
deriving DecidableEq

/-- `POST /application-endpoint-lists` handler
`register_application_endpoints`: unconditionally raises HTTP 501. -/
def register_application_endpoints
    (_request : RegisterApplicationEndpointsRequest)
    (_x_correlator : Option String) :
    Except HTTPException RegisterApplicationEndpointsResponse :=
  .error ⟨501, "Application endpoint registration not yet implemented"⟩

/-- `PUT /application-endpoint-lists/{id}` handler
`update_application_endpoint`: unconditionally raises HTTP 501. -/
def update_application_endpoint
    (_application_endpoint_list_id : String)
    (_request : UpdateApplicationEndpointRequest)
    (_x_correlator : Option String) :
    Except HTTPException Unit :=
  .error ⟨501, "Update application endpoint not yet implemented"⟩

/-- `DELETE /application-endpoint-lists/{id}` handler
`deregister_application_endpoint`: unconditionally raises HTTP 501. -/
def deregister_application_endpoint
    (_application_endpoint_list_id : String)
    (_x_correlator : Option String) :
    Except HTTPException Unit :=
  .error ⟨501, "Deregister application endpoint not yet implemented"⟩

/-! ## Helper lemmas -/

/-- A validated optional scalar is present exactly when its raw input was. -/
theorem validateOptStr_isSome {α : Type} {n : String} {v : String → Bool}
    {w : String → α} {o : Option String} {d : Option α}
    (h : validateOptStr n v w o = .ok d) : d.isSome = o.isSome := by
  cases o with
  | none =>
    simp only [validateOptStr, Except.ok.injEq] at h
    subst h
    rfl
  | some s =>
    simp only [validateOptStr] at h
    split at h
    · cases h
      rfl
    · cases h

/-- Revalidating the stored value of a validated optional scalar succeeds
with the same result. -/
theorem validateOptStr_idem {α : Type} {n : String} {v : String → Bool}
    {w : String → α} (g : α → String) (hg : ∀ s, g (w s) = s)
    {o : Option String} {d : Option α}
    (h : validateOptStr n v w o = .ok d) :
    validateOptStr n v w (d.map g) = .ok d := by
  cases o with
  | none =>
    simp only [validateOptStr, Except.ok.injEq] at h
    subst h
    rfl
  | some s =>
    simp only [validateOptStr] at h
    split at h
    case isTrue hv =>
      cases h
      simp only [Option.map_some', Option.map_some, hg]
      simp only [validateOptStr]
      rw [if_pos hv]
    case isFalse hv => cases h

/-- Revalidating the stored value of a validated required string succeeds
with the same result. -/
theorem validateReqStr_idem {n : String} {v : String → Bool}
    {o : Option String} {s : String}
    (h : validateReqStr n v o = .ok s) :
    validateReqStr n v (some s) = .ok s := by
  cases o with
  | none => cases h
  | some t =>
    simp only [validateReqStr] at h
    split at h
    case isTrue hv =>
      cases h
      simp only [validateReqStr]
      rw [if_pos hv]
    case isFalse hv => cases h

/-- Revalidating the stored value of a validated optional non-empty label
succeeds with the same result. -/
theorem validateOptNonEmpty_idem {n : String} {o d : Option String}
    (h : validateOptNonEmpty n o = .ok d) : validateOptNonEmpty n d = .ok d := by
  cases o with
  | none =>
    simp only [validateOptNonEmpty, Except.ok.injEq] at h
    subst h
    rfl
  | some s =>
    simp only [validateOptNonEmpty] at h
    split at h
    case isTrue hv => cases h
    case isFalse hv =>
      cases h
      simp only [validateOptNonEmpty]
      rw [if_neg hv]

/-- Revalidating the stored value of a validated port succeeds with the same
result. -/
theorem validatePort_idem {o : Option Int} {p : Port}
    (h : validatePort o = .ok p) : validatePort (some p.value) = .ok p := by
  cases o with
  | none => cases h
  | some v =>
    simp only [validatePort] at h
    split at h
    case isTrue hv =>
      cases h
      simp only [validatePort]
      rw [if_pos hv]
    case isFalse hv => cases h

/-- Reparsing the wire token of a parsed zone status yields the same
status. -/
theorem parseZoneStatus_idem {o : Option String} {st : EdgeCloudZoneStatus}
    (h : parseZoneStatus o = .ok st) :
    parseZoneStatus (some st.token) = .ok st := by
  cases o with
  | none =>
    cases h
    rfl
  | some s =>
    simp only [parseZoneStatus] at h
    split at h
    · cases h
      rfl
    · split at h
      · cases h
        rfl
      · split at h
        · cases h
          rfl
        · cases h

/-- Revalidating the `model_dump` of a validated `EdgeCloudZone` yields the
same zone. -/
theorem mkEdgeCloudZone_idem {z : RawEdgeCloudZone} {zz : EdgeCloudZone}
    (h : mkEdgeCloudZone z = .ok zz) :
    mkEdgeCloudZone (EdgeCloudZone.model_dump zz) = .ok zz := by
  unfold mkEdgeCloudZone at h
  split at h
  case h_1 zid zname zprov zreg zstat e1 e2 e3 e4 e5 =>
    cases h
    unfold mkEdgeCloudZone
    simp only [EdgeCloudZone.model_dump]
    rw [validateReqStr_idem e1, validateReqStr_idem e2, validateReqStr_idem e3,
        validateOptNonEmpty_idem e4, parseZoneStatus_idem e5]
  case h_2 => cases h

/-- Revalidating the dumped zone field of a validated endpoint succeeds with
the same result. -/
theorem validateZoneField_idem {o : Option RawEdgeCloudZone}
    {z : Option EdgeCloudZone} (h : validateZoneField o = .ok z) :
    validateZoneField (z.map EdgeCloudZone.model_dump) = .ok z := by
  cases o with
  | none =>
    simp only [validateZoneField, Except.ok.injEq] at h
    subst h
    rfl
  | some zr =>
    simp only [validateZoneField] at h
    cases hm : mkEdgeCloudZone zr with
    | ok zz =>
      rw [hm] at h
      cases h
      simp only [Option.map_some', Option.map_some]
      simp only [validateZoneField]
      rw [mkEdgeCloudZone_idem hm]
    | error es =>
      rw [hm] at h
      cases h

/-- A validated endpoint stores an address field exactly when the raw input
supplied it, so the typed and the raw address counts agree. -/
theorem validateEndpointFields_count {r : RawApplicationEndpoint}
    {e : ApplicationEndpoint} (h : validateEndpointFields r = .ok e) :
    e.addressFieldCount = r.addressCount := by
  unfold validateEndpointFields at h
  split at h
  case h_1 dn v4 v6 p z e1 e2 e3 e4 e5 =>
    cases h
    unfold ApplicationEndpoint.addressFieldCount RawApplicationEndpoint.addressCount
    rw [validateOptStr_isSome e1, validateOptStr_isSome e2, validateOptStr_isSome e3]
  case h_2 => cases h

/-- Revalidating the `model_dump` of a field-validated endpoint yields the
same endpoint. -/
theorem validateEndpointFields_idem {r : RawApplicationEndpoint}
    {e : ApplicationEndpoint} (h : validateEndpointFields r = .ok e) :
    validateEndpointFields (ApplicationEndpoint.model_dump e) = .ok e := by
  unfold validateEndpointFields at h
  split at h
  case h_1 dn v4 v6 p z e1 e2 e3 e4 e5 =>
    cases h
    unfold validateEndpointFields
    simp only [ApplicationEndpoint.model_dump]
    rw [validateOptStr_idem DomainName.value (fun _ => rfl) e1,
        validateOptStr_idem SingleIpv4Addr.value (fun _ => rfl) e2,
        validateOptStr_idem SingleIpv6Addr.value (fun _ => rfl) e3,
        validatePort_idem e4, validateZoneField_idem e5]
  case h_2 => cases h

/-- `model_post_init` succeeds exactly when one address field is set. -/
theorem model_post_init_ok_iff {e : ApplicationEndpoint} :
    e.model_post_init = .ok () ↔ e.addressFieldCount = 1 := by
  unfold ApplicationEndpoint.model_post_init
  by_cases hc : e.addressFieldCount = 1
  · simp [hc]
  · simp [hc]

/-- Revalidating the `model_dump` of a constructed `ApplicationEndpoint`
yields the same endpoint. -/
theorem mkApplicationEndpoint_idem {r : RawApplicationEndpoint}
    {e : ApplicationEndpoint} (h : mkApplicationEndpoint r = .ok e) :
    mkApplicationEndpoint (ApplicationEndpoint.model_dump e) = .ok e := by
  unfold mkApplicationEndpoint at h
  cases hf : validateEndpointFields r with
  | error es =>
    rw [hf] at h
    cases h
  | ok e0 =>
    simp only [hf] at h
    cases hp : e0.model_post_init with
    | error err =>
      simp only [hp] at h
      cases h
    | ok u =>
      cases u
      simp only [hp] at h
      cases h
      unfold mkApplicationEndpoint
      rw [validateEndpointFields_idem hf]
      simp only [hp]

/-- Elementwise-validated raw endpoint lists validate to the corresponding
typed list, in order. -/
theorem forall2_validateEndpointList {rs : List RawApplicationEndpoint}
    {es : List ApplicationEndpoint}
    (h : List.Forall₂ (fun r e => mkApplicationEndpoint r = .ok e) rs es) :
    validateEndpointList rs = .ok es := by
  induction h with
  | nil => rfl
  | cons h1 h2 ih =>
    simp only [validateEndpointList]
    rw [h1, ih]

/-- Revalidating the dumped elements of a validated endpoint list yields the
same list. -/
theorem validateEndpointList_idem {rs : List RawApplicationEndpoint}
    {es : List ApplicationEndpoint} (h : validateEndpointList rs = .ok es) :
    validateEndpointList (es.map ApplicationEndpoint.model_dump) = .ok es := by
  induction rs generalizing es with
  | nil =>
    cases h
    rfl
  | cons r rs ih =>
    simp only [validateEndpointList] at h
    cases hm : mkApplicationEndpoint r with
    | error err =>
      rw [hm] at h
      cases h
    | ok e =>
      rw [hm] at h
      cases hl : validateEndpointList rs with
      | error err =>
        rw [hl] at h
        cases h
      | ok es2 =>
        rw [hl] at h
        cases h
        simp only [List.map_cons, validateEndpointList]
        rw [mkApplicationEndpoint_idem hm, ih hl]

/-- Revalidating the dumped `application_endpoints` field succeeds with the
same list. -/
theorem validateEndpointsField_idem {o : Option (List RawApplicationEndpoint)}
    {es : List ApplicationEndpoint} (h : validateEndpointsField o = .ok es) :
    validateEndpointsField (some (es.map ApplicationEndpoint.model_dump)) = .ok es := by
  cases o with
  | none => cases h
  | some rs =>
    unfold validateEndpointsField at h ⊢
    exact validateEndpointList_idem h

/-- Revalidating the stored value of a validated profile id succeeds with the
same result. -/
theorem validateProfileId_idem {o : Option String} {pid : ApplicationProfileId}
    (h : validateProfileId o = .ok pid) :
    validateProfileId (some pid.value) = .ok pid := by
  cases o with
  | none => cases h
  | some u =>
    simp only [validateProfileId] at h
    split at h
    case isTrue hv =>
      cases h
      simp only [validateProfileId]
      rw [if_pos hv]
    case isFalse hv => cases h

/-- Revalidating the `model_dump` of a constructed `ApplicationEndpointsInfo`
yields the same aggregate. -/
theorem mkApplicationEndpointsInfo_idem {r : RawApplicationEndpointsInfo}
    {i : ApplicationEndpointsInfo} (h : mkApplicationEndpointsInfo r = .ok i) :
    mkApplicationEndpointsInfo (ApplicationEndpointsInfo.model_dump i) = .ok i := by
  unfold mkApplicationEndpointsInfo at h
  split at h
  case h_1 es pn pid e1 e2 e3 =>
    cases h
    unfold mkApplicationEndpointsInfo
    simp only [ApplicationEndpointsInfo.model_dump]
    rw [validateEndpointsField_idem e1, validateProfileId_idem e3]
    simp only [validateProviderName]
  case h_2 => cases h

/-- A constructed `ApplicationEndpointsInfo` required its provider name and
profile id to be present in the raw input. -/
theorem mkApplicationEndpointsInfo_ok_requires {r : RawApplicationEndpointsInfo}
    {i : ApplicationEndpointsInfo} (h : mkApplicationEndpointsInfo r = .ok i) :
    r.applicationProviderName.isSome ∧ r.applicationProfileId.isSome := by
  unfold mkApplicationEndpointsInfo at h
  split at h
  case h_1 es pn pid e1 e2 e3 =>
    constructor
    · cases ho : r.applicationProviderName
      · rw [ho] at e2
        cases e2
      · rfl
    · cases ho : r.applicationProfileId
      · rw [ho] at e3
        cases e3
      · rfl
  case h_2 => cases h

/-- Binding a wire-named endpoint dict recovers every raw field. -/
theorem bindEndpointDict_wire (r : RawApplicationEndpoint) :
    bindEndpointDict (endpointWireDict r) = r := by
  obtain ⟨dn, v4, v6, p, z, de⟩ := r
  cases dn <;> cases v4 <;> cases v6 <;> cases p <;> cases z <;> cases de <;> rfl

/-- Binding a snake_case-named endpoint dict recovers every raw field. -/
theorem bindEndpointDict_snake (r : RawApplicationEndpoint) :
    bindEndpointDict (endpointSnakeDict r) = r := by
  obtain ⟨dn, v4, v6, p, z, de⟩ := r
  cases dn <;> cases v4 <;> cases v6 <;> cases p <;> cases z <;> cases de <;> rfl

/-- Binding a wire-named info dict recovers every raw field. -/
theorem bindInfoDict_wire (r : RawApplicationEndpointsInfo) :
    bindInfoDict (infoWireDict r) = r := by
  obtain ⟨es, pn, ds, pid⟩ := r
  cases es <;> cases pn <;> cases ds <;> cases pid <;> rfl

/-- Binding a snake_case-named info dict recovers every raw field. -/
theorem bindInfoDict_snake (r : RawApplicationEndpointsInfo) :
    bindInfoDict (infoSnakeDict r) = r := by
  obtain ⟨es, pn, ds, pid⟩ := r
  cases es <;> cases pn <;> cases ds <;> cases pid <;> rfl

/-! ## Claim theorems -/

/-- Claim C1: for every `ApplicationEndpoint` construction whose individual
fields (including the required port) each validate, construction succeeds
exactly when one of the three address fields `domainName` / `ipv4Address` /
`ipv6Address` is present, and fails when zero, two or three of them are. -/
theorem endpoint_construction_exactly_one_address (r : RawApplicationEndpoint)
    (h : (validateEndpointFields r).isOk = true) :
    (mkApplicationEndpoint r).isOk = true ↔ r.addressCount = 1 := by
  obtain ⟨e, he⟩ : ∃ e, validateEndpointFields r = .ok e := by
    cases hf : validateEndpointFields r with
    | ok e => exact ⟨e, rfl⟩
    | error es =>
      rw [hf] at h
      cases h
  have hcount := validateEndpointFields_count he
  unfold mkApplicationEndpoint
  rw [he]
  unfold ApplicationEndpoint.model_post_init
  by_cases hc : e.addressFieldCount = 1
  · simp [hc, ← hcount, Except.isOk, Except.toBool]
  · simp [hc, ← hcount, Except.isOk, Except.toBool]

/-- Claim C1 witness: a concrete endpoint input with every field valid and
one address present, on which the equivalence is discharged. -/
theorem endpoint_construction_exactly_one_address_witness :
    (mkApplicationEndpoint
        ⟨some "app.example.com", none, none, some 8080, none, none⟩).isOk = true ↔
      (⟨some "app.example.com", none, none, some 8080, none,
        none⟩ : RawApplicationEndpoint).addressCount = 1 :=
  endpoint_construction_exactly_one_address
    ⟨some "app.example.com", none, none, some 8080, none, none⟩ rfl

/-- Claim C2: every `ApplicationEndpoint` whose construction returned
normally satisfies the exactly-one-address invariant. -/
theorem endpoint_invariant_exactly_one_address (r : RawApplicationEndpoint)
    (e : ApplicationEndpoint) (h : mkApplicationEndpoint r = .ok e) :
    e.addressFieldCount = 1 := by
  unfold mkApplicationEndpoint at h
  cases hf : validateEndpointFields r with
  | error es =>
    rw [hf] at h
    cases h
  | ok e0 =>
    simp only [hf] at h
    cases hp : e0.model_post_init with
    | error err =>
      simp only [hp] at h
      cases h
    | ok u =>
      cases u
      simp only [hp] at h
      cases h
      exact model_post_init_ok_iff.mp hp

/-- Claim C2 witness: the concrete endpoint constructed from one valid
address input indeed stores exactly one address. -/
theorem endpoint_invariant_exactly_one_address_witness :
    (⟨some ⟨"app.example.com"⟩, none, none, ⟨8080⟩, none,
      none⟩ : ApplicationEndpoint).addressFieldCount = 1 :=
  endpoint_invariant_exactly_one_address
    ⟨some "app.example.com", none, none, some 8080, none, none⟩
    ⟨some ⟨"app.example.com"⟩, none, none, ⟨8080⟩, none, none⟩ rfl

/-- Claim C3: when some individual field of an `ApplicationEndpoint` input
fails its own validation while the exactly-one-address rule is also violated,
the reported error is the collected field-level error, not the cross-field
one — the cross-field check in `model_post_init` runs only after every field
validated. -/
theorem field_errors_take_priority (r : RawApplicationEndpoint)
    (es : List FieldError) (hf : validateEndpointFields r = .error es)
    (_hc : r.addressCount ≠ 1) :
    mkApplicationEndpoint r = .error (.fieldErrors es) := by
  unfold mkApplicationEndpoint
  rw [hf]

/-- Claim C3 witness: an input with no port and zero address fields reports
the missing-port field error, not the cross-field error. -/
theorem field_errors_take_priority_witness :
    mkApplicationEndpoint ⟨none, none, none, none, none, none⟩ =
      .error (.fieldErrors [⟨"port", requiredMsg⟩]) :=
  field_errors_take_priority ⟨none, none, none, none, none, none⟩
    [⟨"port", requiredMsg⟩] rfl (by decide)

/-- Claim C4 counterexample: at the concrete input with zero address fields
and a valid port, construction does fail in `model_post_init`, but the
message is the source's "Exactly one of domain_name, ipv4_address, or
ipv6_address must be provided", not the spec's "exactly one address field
required". -/
theorem cross_field_error_message_counterexample :
    mkApplicationEndpoint ⟨none, none, none, some 8080, none, none⟩ =
      .error (.postInitError exactlyOneMsg) ∧
    exactlyOneMsg ≠ "exactly one address field required" :=
  ⟨rfl, by decide⟩

/-- Claim C4 (amended): when an `ApplicationEndpoint` construction fails
because the count of present address fields is not exactly 1 (all individual
fields having validated), the failure carries the message "Exactly one of
domain_name, ipv4_address, or ipv6_address must be provided" raised by
`model_post_init`. -/
theorem cross_field_error_message_amended (r : RawApplicationEndpoint)
    (e : ApplicationEndpoint) (hf : validateEndpointFields r = .ok e)
    (hc : r.addressCount ≠ 1) :
    mkApplicationEndpoint r = .error (.postInitError exactlyOneMsg) := by
  have hcount := validateEndpointFields_count hf
  unfold mkApplicationEndpoint
  simp only [hf]
  unfold ApplicationEndpoint.model_post_init
  rw [if_pos (show e.addressFieldCount ≠ 1 by rw [hcount]; exact hc)]

/-- Claim C4 witness: the amended message theorem discharged on the concrete
zero-address input. -/
theorem cross_field_error_message_amended_witness :
    mkApplicationEndpoint ⟨none, none, none, some 8080, none, none⟩ =
      .error (.postInitError exactlyOneMsg) :=
  cross_field_error_message_amended
    ⟨none, none, none, some 8080, none, none⟩
    ⟨none, none, none, ⟨8080⟩, none, none⟩ rfl (by decide)

/-- Claim C5: constructing `ApplicationEndpointsInfo` with an empty endpoint
list and present, valid provider name and profile id succeeds, while any
construction whose provider name or profile id is absent fails. -/
theorem info_empty_list_valid_required_fields (pn : String) (d : Option String)
    (u : String) (hu : uuidValid u = true) (r : RawApplicationEndpointsInfo)
    (hr : r.applicationProviderName = none ∨ r.applicationProfileId = none) :
    (mkApplicationEndpointsInfo ⟨some [], some pn, d, some u⟩).isOk = true ∧
    (mkApplicationEndpointsInfo r).isOk = false := by
  constructor
  · have h1 : validateEndpointsField (some ([] : List RawApplicationEndpoint)) =
        .ok [] := rfl
    have h2 : validateProviderName (some pn) = .ok pn := rfl
    have h3 : validateProfileId (some u) = .ok ⟨u⟩ := by
      simp only [validateProfileId]
      rw [if_pos hu]
    simp only [mkApplicationEndpointsInfo, h1, h2, h3, Except.isOk, Except.toBool]
  · cases hm : mkApplicationEndpointsInfo r with
    | ok i =>
      have hreq := mkApplicationEndpointsInfo_ok_requires hm
      rcases hr with hn | hp
      · rw [hn] at hreq
        cases hreq.1
      · rw [hp] at hreq
        cases hreq.2
    | error err => rfl

/-- Claim C5 witness: the success and failure halves discharged on an empty
endpoint list with a concrete valid profile id, and on an input missing the
provider name. -/
theorem info_empty_list_valid_required_fields_witness :
    (mkApplicationEndpointsInfo ⟨some [], some "TestProvider", none,
        some "123e4567-e89b-12d3-a456-426614174000"⟩).isOk = true ∧
    (mkApplicationEndpointsInfo ⟨some [], none, none,
        some "123e4567-e89b-12d3-a456-426614174000"⟩).isOk = false :=
  info_empty_list_valid_required_fields "TestProvider" none
    "123e4567-e89b-12d3-a456-426614174000" rfl
    ⟨some [], none, none, some "123e4567-e89b-12d3-a456-426614174000"⟩
    (Or.inl rfl)

/-- Claim C6: constructing `ApplicationEndpointsInfo` over a raw list that
validates elementwise to the endpoint list `es` yields an aggregate whose
`application_endpoints` equals `es` element-for-element in the same order. -/
theorem info_preserves_endpoint_order (rs : List RawApplicationEndpoint)
    (es : List ApplicationEndpoint)
    (h : List.Forall₂ (fun r e => mkApplicationEndpoint r = .ok e) rs es)
    (pn : String) (d : Option String) (u : String) (hu : uuidValid u = true) :
    mkApplicationEndpointsInfo ⟨some rs, some pn, d, some u⟩ =
      .ok ⟨es, pn, d, ⟨u⟩⟩ := by
  have h1 : validateEndpointsField (some rs) = .ok es := by
    unfold validateEndpointsField
    exact forall2_validateEndpointList h
  have h2 : validateProviderName (some pn) = .ok pn := rfl
  have h3 : validateProfileId (some u) = .ok ⟨u⟩ := by
    simp only [validateProfileId]
    rw [if_pos hu]
  simp only [mkApplicationEndpointsInfo, h1, h2, h3]

/-- Claim C6 witness: a two-element endpoint list is preserved in order by
the aggregate construction. -/
theorem info_preserves_endpoint_order_witness :
    mkApplicationEndpointsInfo
        ⟨some [⟨some "app.example.com", none, none, some 8080, none, none⟩,
               ⟨none, some "10.0.0.1", none, some 443, none, none⟩],
         some "TestProvider", none,
         some "123e4567-e89b-12d3-a456-426614174000"⟩ =
      .ok ⟨[⟨some ⟨"app.example.com"⟩, none, none, ⟨8080⟩, none, none⟩,
            ⟨none, some ⟨"10.0.0.1"⟩, none, ⟨443⟩, none, none⟩],
           "TestProvider", none, ⟨"123e4567-e89b-12d3-a456-426614174000"⟩⟩ :=
  info_preserves_endpoint_order
    [⟨some "app.example.com", none, none, some 8080, none, none⟩,
     ⟨none, some "10.0.0.1", none, some 443, none, none⟩]
    [⟨some ⟨"app.example.com"⟩, none, none, ⟨8080⟩, none, none⟩,
     ⟨none, some ⟨"10.0.0.1"⟩, none, ⟨443⟩, none, none⟩]
    (by refine List.Forall₂.cons ?_ (List.Forall₂.cons ?_ List.Forall₂.nil) <;> rfl)
    "TestProvider" none "123e4567-e89b-12d3-a456-426614174000" rfl

/-- Claim C7: serializing a validly constructed `ApplicationEndpoint` or
`ApplicationEndpointsInfo` with `model_dump` and re-validating the serialized
form yields an equal aggregate — validation is idempotent under
round-trip. -/
theorem roundtrip_idempotent_validation (r : RawApplicationEndpoint)
    (e : ApplicationEndpoint) (ri : RawApplicationEndpointsInfo)
    (i : ApplicationEndpointsInfo) (h1 : mkApplicationEndpoint r = .ok e)
    (h2 : mkApplicationEndpointsInfo ri = .ok i) :
    mkApplicationEndpoint (ApplicationEndpoint.model_dump e) = .ok e ∧
    mkApplicationEndpointsInfo (ApplicationEndpointsInfo.model_dump i) = .ok i :=
  ⟨mkApplicationEndpoint_idem h1, mkApplicationEndpointsInfo_idem h2⟩

/-- Claim C7 witness: the round trip discharged on a concrete endpoint (with
zone) and a concrete aggregate. -/
theorem roundtrip_idempotent_validation_witness :
    mkApplicationEndpoint
        (ApplicationEndpoint.model_dump
          ⟨some ⟨"app.example.com"⟩, none, none, ⟨8080⟩,
           some ⟨"123e4567-e89b-12d3-a456-426614174000", "ZoneA", "ProviderA",
                 some "us-east-1", .active⟩, none⟩) =
      .ok ⟨some ⟨"app.example.com"⟩, none, none, ⟨8080⟩,
           some ⟨"123e4567-e89b-12d3-a456-426614174000", "ZoneA", "ProviderA",
                 some "us-east-1", .active⟩, none⟩ ∧
    mkApplicationEndpointsInfo
        (ApplicationEndpointsInfo.model_dump
          ⟨[⟨some ⟨"app.example.com"⟩, none, none, ⟨8080⟩, none, none⟩],
           "TestProvider", some "desc",
           ⟨"123e4567-e89b-12d3-a456-426614174000"⟩⟩) =
      .ok ⟨[⟨some ⟨"app.example.com"⟩, none, none, ⟨8080⟩, none, none⟩],
           "TestProvider", some "desc",
           ⟨"123e4567-e89b-12d3-a456-426614174000"⟩⟩ :=
  roundtrip_idempotent_validation
    ⟨some "app.example.com", none, none, some 8080,
     some ⟨some "123e4567-e89b-12d3-a456-426614174000", some "ZoneA",
           some "ProviderA", some "us-east-1", some "active"⟩, none⟩
    ⟨some ⟨"app.example.com"⟩, none, none, ⟨8080⟩,
     some ⟨"123e4567-e89b-12d3-a456-426614174000", "ZoneA", "ProviderA",
           some "us-east-1", .active⟩, none⟩
    ⟨some [⟨some "app.example.com", none, none, some 8080, none, none⟩],
     some "TestProvider", some "desc",
     some "123e4567-e89b-12d3-a456-426614174000"⟩
    ⟨[⟨some ⟨"app.example.com"⟩, none, none, ⟨8080⟩, none, none⟩],
     "TestProvider", some "desc", ⟨"123e4567-e89b-12d3-a456-426614174000"⟩⟩
    rfl rfl

/-- Claim C8: an input dict spelled with the external wire field names and
one spelled with the internal snake_case names bind to the same raw fields,
so construction accepts either spelling and produces the same result. -/
theorem alias_and_field_name_binding (r : RawApplicationEndpoint)
    (ri : RawApplicationEndpointsInfo) :
    bindEndpointDict (endpointWireDict r) = r ∧
    bindEndpointDict (endpointSnakeDict r) = r ∧
    bindInfoDict (infoWireDict ri) = ri ∧
    bindInfoDict (infoSnakeDict ri) = ri ∧
    mkApplicationEndpoint (bindEndpointDict (endpointWireDict r)) =
      mkApplicationEndpoint (bindEndpointDict (endpointSnakeDict r)) ∧
    mkApplicationEndpointsInfo (bindInfoDict (infoWireDict ri)) =
      mkApplicationEndpointsInfo (bindInfoDict (infoSnakeDict ri)) := by
  refine ⟨bindEndpointDict_wire r, bindEndpointDict_snake r,
          bindInfoDict_wire ri, bindInfoDict_snake ri, ?_, ?_⟩
  · rw [bindEndpointDict_wire r, bindEndpointDict_snake r]
  · rw [bindInfoDict_wire ri, bindInfoDict_snake ri]

/-- Claim C9: each state-changing route handler — `POST`
`register_application_endpoints`, `PUT` `update_application_endpoint` and
`DELETE` `deregister_application_endpoint` — unconditionally raises HTTP 501
"not implemented" on every input (the handlers touch no state: none exists in
the repository). -/
theorem state_changing_handlers_not_implemented
    (req : RegisterApplicationEndpointsRequest) (xc1 : Option String)
    (lid1 : String) (ureq : UpdateApplicationEndpointRequest)
    (xc2 : Option String) (lid2 : String) (xc3 : Option String) :
    register_application_endpoints req xc1 =
      .error ⟨501, "Application endpoint registration not yet implemented"⟩ ∧
    update_application_endpoint lid1 ureq xc2 =
      .error ⟨501, "Update application endpoint not yet implemented"⟩ ∧
    deregister_application_endpoint lid2 xc3 =
      .error ⟨501, "Deregister application endpoint not yet implemented"⟩ :=
  ⟨rfl, rfl, rfl⟩

/-- Claim C10: `applicationProviderName` accepts every string, including the
empty string (the field is a bare `str`), unlike the zone-level name scalar,
which rejects the empty string. -/
theorem provider_name_unconstrained (s : String) :
    (mkApplicationEndpointsInfo ⟨some [], some s, none,
        some "123e4567-e89b-12d3-a456-426614174000"⟩).isOk = true ∧
    (mkEdgeCloudZone ⟨some "123e4567-e89b-12d3-a456-426614174000", some "",
        some "ProviderA", none, none⟩).isOk = false := by
  constructor
  · have h3 : validateProfileId (some "123e4567-e89b-12d3-a456-426614174000") =
        .ok ⟨"123e4567-e89b-12d3-a456-426614174000"⟩ := rfl
    simp only [mkApplicationEndpointsInfo, h3, Except.isOk]
    rfl
  · rfl

end Camara
